import Mathlib

/-!
Verification development for the Livestock_Management decision-support engine.

The definitions below are a shallow embedding of the Python services in
`core/services.py` (feeding recommendations, disease monitoring) and
`core/pricing_service.py` (market / profitability analysis).  Python floats
and Decimals are idealised as rationals (`ℚ`); Django query sets are lists;
a Python runtime exception that can escape an operation is modelled by an
`Option` result (`none` = uncaught exception).  Python `list.sort` with a key
is a stable sort, embedded with `List.insertionSort` (also stable).
-/

namespace Farm

attribute [local semireducible] Rat.add Rat.mul Rat.inv Rat.sub Rat.ofScientific

/-- Python `round` (banker's rounding, half to even) of a rational to an
integer. -/
def rhe (q : ℚ) : ℤ :=
  let f : ℤ := Rat.floor q
  let r : ℚ := q - f
  if r < 1/2 then f
  else if 1/2 < r then f + 1
  else if f % 2 = 0 then f else f + 1

/-- Python `round(x, 2)`. -/
def round2 (q : ℚ) : ℚ := (rhe (q * 100) : ℚ) / 100

/-- Left-pad a string with zeros to width `n`. -/
def padZeros (n : ℕ) (s : String) : String :=
  String.mk (List.replicate (n - s.length) '0') ++ s

/-- Python fixed-point formatting, as in `f"{x:.2f}"` (`fmtFixed 2 x`). -/
def fmtFixed (d : ℕ) (q : ℚ) : String :=
  let m : ℤ := rhe (q * ((10 : ℚ) ^ d))
  let sign := if m < 0 then "-" else ""
  let a := m.natAbs
  if d = 0 then sign ++ toString (a / 10 ^ d)
  else sign ++ toString (a / 10 ^ d) ++ "." ++ padZeros d (toString (a % 10 ^ d))

/-- Python `str.lower`. -/
def lowerStr (s : String) : String := String.mk (s.toList.map Char.toLower)

/-- Python `pat in s` substring test. -/
def strContains (s pat : String) : Bool := decide (pat.toList <:+: s.toList)

/-- Python truthiness of an optional number (`None` and `0` are falsy). -/
def truthyQ (x : Option ℚ) : Bool :=
  match x with
  | none => false
  | some v => v != 0

/-- Python truthiness of an optional natural (`None` and `0` are falsy). -/
def truthyN (x : Option ℕ) : Bool :=
  match x with
  | none => false
  | some v => v != 0

/-- Python truthiness of an optional string (`None` and `""` are falsy). -/
def truthyS (x : Option String) : Bool :=
  match x with
  | none => false
  | some s => s != ""

/-- `core.models.AnimalType` (the fields the engine reads). -/
structure AnimalType where
  id : ℕ
  name : String
deriving DecidableEq, Repr

/-- `core.models.FeedType` (the fields the engine reads).  `suitable_for`
is the many-to-many link to animal types, as a list of their ids. -/
structure FeedType where
  id : ℕ
  name : String
  protein_percentage : Option ℚ
  cost_per_kg : Option ℚ
  suitable_for : List ℕ
deriving DecidableEq, Repr

/-- `core.models.FeedingRecommendation` (a feeding rule).  The foreign key
`feed_type` is embedded by value. -/
structure FeedingRule where
  animal_type : ℕ
  feed_type : FeedType
  min_age_months : ℕ
  max_age_months : Option ℕ
  min_weight_kg : ℚ
  max_weight_kg : Option ℚ
  purpose : String
  daily_amount_kg : ℚ
  feeding_frequency : ℕ
  notes : String
deriving DecidableEq, Repr

/-- `core.models.Livestock` (the fields the engine reads; `age_months` is the
derived property, `None` when no date of birth is recorded). -/
structure LivestockRow where
  id : ℕ
  animal_type : ℕ
  breed : Option ℕ
  age_months : Option ℕ
  current_weight_kg : Option ℚ
  purpose : String
  purchase_price : Option ℚ
deriving DecidableEq, Repr

/-- `core.models.Disease` (symptoms and affected animal types as id lists). -/
structure Disease where
  id : ℕ
  name : String
  severity : String
  is_contagious : Bool
  vet_required : Bool
  affected_animals : List ℕ
  symptoms : List ℕ
  treatment_advice : String
  prevention_measures : String
deriving DecidableEq, Repr

/-- `core.models.MarketPrice` (dates as integer day numbers). -/
structure MarketPriceRow where
  animal_type : ℕ
  breed : Option ℕ
  location : String
  date_recorded : ℤ
  price_per_kg : ℚ
  quality_grade : String
deriving DecidableEq, Repr

/-- `core.models.CostRecord`. -/
structure CostRecord where
  livestock : ℕ
  category : String
  amount : ℚ
deriving DecidableEq, Repr

/-- The reference store: the tables read by the engine.  `symptom_ids` models
the `Symptom` table (only ids are ever compared). -/
structure DB where
  animal_types : List AnimalType
  feed_rules : List FeedingRule
  feed_types : List FeedType
  livestock : List LivestockRow
  diseases : List Disease
  symptom_ids : List ℕ
  market_prices : List MarketPriceRow
  cost_records : List CostRecord
deriving Repr

/-- `AnimalType.objects.get(id=i)` (ids are unique primary keys). -/
def get_animal_type (db : DB) (i : ℕ) : Option AnimalType :=
  db.animal_types.find? (fun t => t.id = i)

/-- `Livestock.objects.get(id=i)`. -/
def get_livestock (db : DB) (i : ℕ) : Option LivestockRow :=
  db.livestock.find? (fun l => l.id = i)

/-- `core.services.AnimalInput`. -/
structure AnimalInput where
  animal_type_id : ℕ
  age_months : Option ℕ := none
  weight_kg : Option ℚ := none
  purpose : Option String := none
  livestock_id : Option ℕ := none
deriving DecidableEq, Repr

/-- The intermediate recommendation dict built by the feeding service. -/
structure RecDict where
  feed_type : FeedType
  daily_amount_kg : ℚ
  feeding_frequency : ℕ
  notes : String
  source : String
deriving DecidableEq, Repr

/-- `core.services.FeedingResult`. -/
structure FeedingResult where
  feed_type : FeedType
  daily_amount_kg : ℚ
  feeding_frequency : ℕ
  cost_per_day : ℚ
  notes : String
  recommendation_source : String
deriving DecidableEq, Repr

/-- The livestock-override step at the top of `get_recommendations`: when a
truthy `livestock_id` resolves, age/weight/purpose are overwritten from the
stored animal (`weight_kg = float(livestock.current_weight_kg or 0)`); an
unknown id is silently ignored (`except ... pass`). -/
def resolve_input (db : DB) (a : AnimalInput) : AnimalInput :=
  if truthyN a.livestock_id then
    match get_livestock db (a.livestock_id.getD 0) with
    | some l =>
        { a with age_months := l.age_months
                 weight_kg := some (l.current_weight_kg.getD 0)
                 purpose := some l.purpose }
    | none => a
  else a

/-- The weight-range filter of `_get_base_recommendations`:
`min_weight_kg <= w` and (`max_weight_kg >= w` or null). -/
def admits_weight (r : FeedingRule) (w : ℚ) : Bool :=
  decide (r.min_weight_kg ≤ w) &&
    (match r.max_weight_kg with
     | none => true
     | some mx => decide (w ≤ mx))

/-- The age-range filter of `_get_base_recommendations`:
`min_age_months <= a` and (`max_age_months >= a` or null). -/
def admits_age (r : FeedingRule) (a : ℕ) : Bool :=
  decide (r.min_age_months ≤ a) &&
    (match r.max_age_months with
     | none => true
     | some mx => decide (a ≤ mx))

/-- The combined queryset filter of `_get_base_recommendations`: the age and
weight filters apply only when the field `is not None`, the purpose filter
only when the field is truthy (rule purpose `''` is a wildcard). -/
def rule_matches (r : FeedingRule) (t : AnimalType) (a : AnimalInput) : Bool :=
  decide (r.animal_type = t.id) &&
  (match a.age_months with
   | none => true
   | some ag => admits_age r ag) &&
  (match a.weight_kg with
   | none => true
   | some w => admits_weight r w) &&
  (if truthyS a.purpose then
     (decide (r.purpose = a.purpose.getD "") || decide (r.purpose = ""))
   else true)

/-- `_get_base_recommendations`: matching rules become dicts with source
`'Database Recommendation'`. -/
def get_base_recommendations (db : DB) (t : AnimalType) (a : AnimalInput) :
    List RecDict :=
  (db.feed_rules.filter (fun r => rule_matches r t a)).map (fun r =>
    { feed_type := r.feed_type
      daily_amount_kg := r.daily_amount_kg
      feeding_frequency := r.feeding_frequency
      notes := r.notes
      source := "Database Recommendation" })

/-- `_calculate_weight_factor` (the Python code re-fetches the animal type by
id; `get_recommendations` has already resolved that unique id, so the
embedding branches on the resolved row's name). -/
def calculate_weight_factor (name : String) (w : ℚ) : ℚ :=
  if name = "Cattle" then
    if w < 100 then 3/5
    else if w < 300 then 4/5
    else if w > 600 then 6/5
    else 1
  else if name = "Goats" ∨ name = "Sheep" then
    if w < 20 then 7/10
    else if w > 70 then 11/10
    else 1
  else if name = "Poultry" then
    if w < 1 then 4/5
    else if w > 3 then 11/10
    else 1
  else 1

/-- `_calculate_age_factor`. -/
def calculate_age_factor (name : String) (age : ℕ) : ℚ :=
  if name = "Cattle" then
    if age < 6 then 1/2
    else if age < 12 then 4/5
    else if age > 60 then 11/10
    else 1
  else if name = "Goats" ∨ name = "Sheep" then
    if age < 3 then 3/5
    else if age < 8 then 9/10
    else 1
  else if name = "Poultry" then
    if age < 2 then 7/10
    else if age > 12 then 21/20
    else 1
  else 1

/-- `_calculate_purpose_factor` (`purpose_factors.get(purpose, 1.0)`). -/
def calculate_purpose_factor (p : String) : ℚ :=
  if p = "MILK" then 13/10
  else if p = "EGGS" then 6/5
  else if p = "BREEDING" then 5/4
  else if p = "MEAT" then 11/10
  else if p = "MIXED" then 23/20
  else 1

/-- The weight block of `_apply_intelligent_adjustments`: runs only when
`animal_input.weight_kg` is truthy; a factor `!= 1.0` appends a note and
overwrites the source. -/
def apply_weight_adjustment (t : AnimalType) (a : AnimalInput) (r : RecDict) :
    RecDict :=
  if truthyQ a.weight_kg then
    let f := calculate_weight_factor t.name (a.weight_kg.getD 0)
    let r1 := { r with daily_amount_kg := r.daily_amount_kg * f }
    if f ≠ 1 then
      { r1 with
          notes := r1.notes ++ (" Amount adjusted by " ++ fmtFixed 2 f ++ "x for weight.")
          source := "Smart Recommendation (Weight Adjusted)" }
    else r1
  else r

/-- The age block of `_apply_intelligent_adjustments`: the source is only
overwritten when it does not already contain `'Smart Recommendation'`. -/
def apply_age_adjustment (t : AnimalType) (a : AnimalInput) (r : RecDict) :
    RecDict :=
  if truthyN a.age_months then
    let f := calculate_age_factor t.name (a.age_months.getD 0)
    let r1 := { r with daily_amount_kg := r.daily_amount_kg * f }
    if f ≠ 1 then
      { r1 with
          notes := r1.notes ++ (" Amount adjusted by " ++ fmtFixed 2 f ++ "x for age.")
          source := if strContains r1.source ("Smart Recommendation") then r1.source
                    else "Smart Recommendation (Age Adjusted)" }
    else r1
  else r

/-- The purpose block of `_apply_intelligent_adjustments`. -/
def apply_purpose_adjustment (a : AnimalInput) (r : RecDict) : RecDict :=
  if truthyS a.purpose then
    let f := calculate_purpose_factor (a.purpose.getD "")
    let r1 := { r with daily_amount_kg := r.daily_amount_kg * f }
    if f ≠ 1 then
      { r1 with
          notes := r1.notes ++ (" Amount adjusted by " ++ fmtFixed 2 f ++ "x for " ++
            lowerStr (a.purpose.getD "") ++ " purpose.")
          source := if strContains r1.source ("Smart Recommendation") then r1.source
                    else "Smart Recommendation (Purpose Adjusted)" }
    else r1
  else r

/-- One pass of the adjustment loop: the three factor blocks in order, then
`round(amount, 2)`. -/
def adjust_one (t : AnimalType) (a : AnimalInput) (r : RecDict) : RecDict :=
  let r3 := apply_purpose_adjustment a (apply_age_adjustment t a (apply_weight_adjustment t a r))
  { r3 with daily_amount_kg := round2 r3.daily_amount_kg }

/-- The flat fallback base amount of `_get_emergency_recommendations`. -/
def emergency_base_amount (name : String) : ℚ :=
  if name = "Cattle" then 15
  else if name = "Goats" ∨ name = "Sheep" then 5/2
  else if name = "Poultry" then 3/20
  else 5

/-- `_get_emergency_recommendations`: up to 3 feeds catalogued as suitable for
the animal type, flat amount, frequency 2, a consult-a-veterinarian note. -/
def get_emergency_recommendations (db : DB) (a : AnimalInput) : List RecDict :=
  match get_animal_type db a.animal_type_id with
  | none => []
  | some t =>
      ((db.feed_types.filter (fun f => t.id ∈ f.suitable_for)).take 3).map (fun f =>
        { feed_type := f
          daily_amount_kg := emergency_base_amount t.name
          feeding_frequency := 2
          notes := "Basic recommendation - please consult with veterinarian for specific needs."
          source := "Emergency Recommendation" })

/-- `_apply_intelligent_adjustments`: adjust every base dict; if the result is
empty, substitute the emergency recommendations. -/
def apply_intelligent_adjustments (db : DB) (t : AnimalType)
    (base : List RecDict) (a : AnimalInput) : List RecDict :=
  let adjusted := base.map (adjust_one t a)
  if adjusted.isEmpty then get_emergency_recommendations db a else adjusted

/-- `_calculate_daily_cost` (`if feed_type.cost_per_kg:` is a truthiness
test, so a null or zero unit cost yields 0.0). -/
def calculate_daily_cost (f : FeedType) (amount : ℚ) : ℚ :=
  if truthyQ f.cost_per_kg then (f.cost_per_kg.getD 0) * amount else 0

/-- The sort key of `get_recommendations`:
`(cost_per_day, -protein_percentage)`.  Guarded use only: the pipeline checks
`protein_percentage` is present before this default is ever read. -/
def sort_key (r : FeedingResult) : ℚ × ℚ :=
  (r.cost_per_day, -(r.feed_type.protein_percentage.getD 0))

/-- Lexicographic non-strict order on pairs, as Python compares key tuples. -/
def key_le (x y : ℚ × ℚ) : Prop := x.1 < y.1 ∨ (x.1 = y.1 ∧ x.2 ≤ y.2)

instance : DecidableRel key_le := fun x y =>
  inferInstanceAs (Decidable (x.1 < y.1 ∨ (x.1 = y.1 ∧ x.2 ≤ y.2)))

/-- Result order of `get_recommendations`. -/
def feed_le (a b : FeedingResult) : Prop := key_le (sort_key a) (sort_key b)

instance : DecidableRel feed_le := fun a b =>
  inferInstanceAs (Decidable (key_le (sort_key a) (sort_key b)))

/-- The result-building loop of `get_recommendations`: one `FeedingResult`
per adjusted dict, with the daily cost computed. -/
def make_result (r : RecDict) : FeedingResult :=
  { feed_type := r.feed_type
    daily_amount_kg := r.daily_amount_kg
    feeding_frequency := r.feeding_frequency
    cost_per_day := calculate_daily_cost r.feed_type r.daily_amount_kg
    notes := r.notes
    recommendation_source := r.source }

/-- The unsorted result list of `get_recommendations`. -/
def recommend_results (db : DB) (t : AnimalType) (a : AnimalInput) :
    List FeedingResult :=
  (apply_intelligent_adjustments db t (get_base_recommendations db t a) a).map make_result

/-- The body of `get_recommendations` after the animal type has resolved.
Python evaluates the sort key on every result before sorting, so a single
result whose feed has a null `protein_percentage` raises `TypeError`
(`-None`); that uncaught exception is the `none` outcome. -/
def recommend_body (db : DB) (t : AnimalType) (a : AnimalInput) :
    Option (List FeedingResult) :=
  let results := recommend_results db t a
  if results.all (fun r => r.feed_type.protein_percentage.isSome) then
    some ((results.insertionSort feed_le).take 5)
  else none

/-- `FeedingRecommendationService.get_recommendations`.  An unknown animal
type returns `[]` (the `DoesNotExist` branch), not an error. -/
def get_recommendations (db : DB) (q : AnimalInput) :
    Option (List FeedingResult) :=
  match get_animal_type db q.animal_type_id with
  | none => some []
  | some t => recommend_body db t (resolve_input db q)

/-- Provenance abstraction used by the specification: `'catalog'`,
`'adjusted'` and `'fallback'` name the source strings the code produces. -/
def provTag (s : String) : String :=
  if strContains s ("Smart Recommendation") then "adjusted"
  else if s = "Database Recommendation" then "catalog"
  else if s = "Emergency Recommendation" then "fallback"
  else "other"

/-- `core.services.SymptomInput`. -/
structure SymptomInput where
  animal_type_id : ℕ
  symptoms : List ℕ
  livestock_id : Option ℕ := none
deriving DecidableEq, Repr

/-- `core.services.DiseaseResult` (symptom sets as id lists). -/
structure DiseaseResult where
  disease : Disease
  confidence_score : ℚ
  matching_symptoms : List ℕ
  missing_symptoms : List ℕ
  severity_level : String
  requires_vet : Bool
  recommendations : String
  prevention_tips : String
deriving DecidableEq, Repr

/-- `Symptom.objects.filter(id__in=ids)`: the ids of the stored symptom rows
that occur in the query list (each row once, as a query set). -/
def resolved_symptoms (db : DB) (ids : List ℕ) : List ℕ :=
  db.symptom_ids.filter (fun s => s ∈ ids)

/-- `_calculate_confidence_score`.  The `missing` argument is accepted and
ignored, exactly as in the source. -/
def calculate_confidence_score (d : Disease) (matching : List ℕ)
    (missing : List ℕ) (input_syms : List ℕ) : ℚ :=
  if matching.isEmpty then 0
  else
    let total_disease_symptoms := d.symptoms.length
    let total_input_symptoms := input_syms.length
    let matching_count := matching.length
    if total_disease_symptoms = 0 then 0
    else
      let base_score : ℚ := (matching_count : ℚ) / total_disease_symptoms
      let match_rate : ℚ :=
        if total_input_symptoms > 0 then (matching_count : ℚ) / total_input_symptoms else 0
      let excess_symptoms : ℕ := total_input_symptoms - matching_count
      let excess_penalty : ℚ := min (3/10) ((excess_symptoms : ℚ) * (1/10))
      let severity_weight : ℚ :=
        if d.severity = "CRITICAL" then 11/10
        else if d.severity = "HIGH" then 21/20
        else if d.severity = "MEDIUM" then 1
        else if d.severity = "LOW" then 19/20
        else 1
      let contagious_weight : ℚ := if d.is_contagious then 21/20 else 1
      let final_score :=
        (base_score * (7/10) + match_rate * (3/10)) * severity_weight * contagious_weight
          - excess_penalty
      max 0 (min 1 final_score)

/-- `_analyze_disease_match`.  Python materialises the matching set with
`set(...) & set(...)`; the embedding keeps the query order of the resolved
input symptoms (only cardinalities feed the score). -/
def analyze_disease_match (d : Disease) (input_syms : List ℕ) : DiseaseResult :=
  let matching := input_syms.filter (fun s => s ∈ d.symptoms)
  let missing := d.symptoms.filter (fun s => s ∉ matching)
  { disease := d
    confidence_score := calculate_confidence_score d matching missing input_syms
    matching_symptoms := matching
    missing_symptoms := missing
    severity_level := d.severity
    requires_vet := d.vet_required
    recommendations :=
      if d.treatment_advice != "" then d.treatment_advice
      else "Consult with a veterinarian for proper treatment."
    prevention_tips :=
      if d.prevention_measures != "" then d.prevention_measures
      else "Follow general livestock health practices." }

/-- Descending-confidence order (`sort(key=..., reverse=True)`, stable). -/
def conf_ge (a b : DiseaseResult) : Prop := b.confidence_score ≤ a.confidence_score

instance : DecidableRel conf_ge := fun a b =>
  inferInstanceAs (Decidable (b.confidence_score ≤ a.confidence_score))

/-- `DiseaseMonitoringService.analyze_symptoms`. -/
def analyze_symptoms (db : DB) (q : SymptomInput) : List DiseaseResult :=
  match get_animal_type db q.animal_type_id with
  | none => []
  | some t =>
      let input_syms := resolved_symptoms db q.symptoms
      if input_syms.isEmpty then []
      else
        let potential := db.diseases.filter (fun d => t.id ∈ d.affected_animals)
        let results := (potential.map (fun d => analyze_disease_match d input_syms)).filter
          (fun r => decide (r.confidence_score > 0))
        (results.insertionSort conf_ge).take 10

/-- `DiseaseMonitoringService.get_critical_alerts`. -/
def get_critical_alerts (db : DB) (q : SymptomInput) : List DiseaseResult :=
  (analyze_symptoms db q).filter (fun r =>
    (decide (r.severity_level = "CRITICAL") || decide (r.severity_level = "HIGH")) &&
      decide (r.confidence_score > 3/10))

/-- `core.pricing_service.ProfitabilityResult.cost_breakdown`. -/
structure CostBreakdown where
  purchase_price : ℚ
  feed_costs : ℚ
  veterinary_costs : ℚ
  medicine_costs : ℚ
  other_costs : ℚ
deriving DecidableEq, Repr

/-- `core.pricing_service.ProfitabilityResult`. -/
structure ProfitabilityResult where
  livestock_id : ℕ
  current_market_value : ℚ
  total_investment : ℚ
  estimated_profit : ℚ
  profit_margin_percentage : ℚ
  break_even_price : ℚ
  recommendation : String
  cost_breakdown : CostBreakdown
deriving DecidableEq, Repr

/-- `PricingAnalysisService._calculate_price_trend`, applied to the
newest-first price series (per kg).  Mirrors the source: fewer than 2 records
or a zero older average short-circuit to `('STABLE', 0.0)`; otherwise the
trend is classified on the exact percentage change and the returned
percentage is `round(.., 2)`. -/
def calculate_price_trend (prices : List ℚ) : String × ℚ :=
  if prices.length < 2 then ("STABLE", 0)
  else
    let recent := prices.take 5
    let recent_avg := recent.sum / (min 5 prices.length : ℕ)
    let older := (prices.drop 5).take 10
    let older_avg :=
      if prices.length > 5 then older.sum / (min 10 older.length : ℕ) else recent_avg
    if older_avg = 0 then ("STABLE", 0)
    else
      let percentage_change := (recent_avg - older_avg) / older_avg * 100
      let trend :=
        if percentage_change > 5 then "RISING"
        else if percentage_change < -5 then "FALLING"
        else "STABLE"
      (trend, round2 percentage_change)

/-- Newest-first order on price rows (`order_by('-date_recorded')`). -/
def date_desc (a b : MarketPriceRow) : Prop := b.date_recorded ≤ a.date_recorded

instance : DecidableRel date_desc := fun a b =>
  inferInstanceAs (Decidable (b.date_recorded ≤ a.date_recorded))

/-- `_calculate_current_market_value` (`today` is the analysis day as an
integer day number).  The foreign key `livestock.animal_type` is resolved in
the store; referential integrity makes the lookup total, the `getD`
defaults are never read for a stored row. -/
def calculate_current_market_value (db : DB) (today : ℤ) (l : LivestockRow) : ℚ :=
  let recent : List MarketPriceRow := (db.market_prices.filter (fun p =>
    decide (p.animal_type = l.animal_type) && decide (today - 30 ≤ p.date_recorded))).insertionSort date_desc
  let recent : List MarketPriceRow :=
    match l.breed with
    | some b =>
        let breed_prices := recent.filter (fun p => p.breed = some b)
        if breed_prices.isEmpty then recent else breed_prices
    | none => recent
  let type_name := ((get_animal_type db l.animal_type).map (fun t => t.name)).getD ""
  let avg_price_per_kg :=
    if recent.isEmpty then
      if type_name = "Cattle" then 17/2
      else if type_name = "Goats" then 12
      else if type_name = "Sheep" then 10
      else if type_name = "Poultry" then 9/2
      else 7
    else ((recent.take 5).map (fun p => p.price_per_kg)).sum / (min 5 recent.length : ℕ)
  avg_price_per_kg * (l.current_weight_kg.getD 0)

/-- `_calculate_total_investment`: purchase price (or 0) plus all cost
records for the animal. -/
def calculate_total_investment (db : DB) (l : LivestockRow) : ℚ :=
  (l.purchase_price.getD 0) +
    ((db.cost_records.filter (fun c => c.livestock = l.id)).map (fun c => c.amount)).sum

/-- `_get_cost_breakdown`. -/
def get_cost_breakdown (db : DB) (l : LivestockRow) : CostBreakdown :=
  let costs := db.cost_records.filter (fun c => c.livestock = l.id)
  { purchase_price := l.purchase_price.getD 0
    feed_costs := ((costs.filter (fun c => c.category = "FEED")).map (fun c => c.amount)).sum
    veterinary_costs := ((costs.filter (fun c => c.category = "VETERINARY")).map (fun c => c.amount)).sum
    medicine_costs := ((costs.filter (fun c => c.category = "MEDICINE")).map (fun c => c.amount)).sum
    other_costs := ((costs.filter (fun c =>
      c.category ≠ "FEED" ∧ c.category ≠ "VETERINARY" ∧ c.category ≠ "MEDICINE")).map
        (fun c => c.amount)).sum }

/-- `_generate_profitability_recommendation` (margin-band text). -/
def generate_profitability_recommendation (profit_margin : ℚ) : String :=
  if profit_margin > 20 then
    "Excellent profit potential (" ++ fmtFixed 1 profit_margin ++
      "%). Consider selling if market conditions are favorable."
  else if profit_margin > 10 then
    "Good profit margin (" ++ fmtFixed 1 profit_margin ++ "%). Ready for sale when convenient."
  else if profit_margin > 0 then
    "Moderate profit expected (" ++ fmtFixed 1 profit_margin ++
      "%). Monitor growth and market prices."
  else if profit_margin > -10 then
    "Close to break-even (" ++ fmtFixed 1 profit_margin ++ "%). Hold and reduce costs if possible."
  else
    "Currently at loss (" ++ fmtFixed 1 profit_margin ++
      "%). Review feeding costs and consider veterinary consultation."

/-- The break-even divisor `float(livestock.current_weight_kg or 1)`:
a missing or zero weight falls back to 1, any other weight is used as-is. -/
def weight_or_one (w : Option ℚ) : ℚ :=
  match w with
  | none => 1
  | some x => if x = 0 then 1 else x

/-- `PricingAnalysisService.analyze_livestock_profitability` (`None` for an
unknown animal becomes `none`). -/
def analyze_livestock_profitability (db : DB) (today : ℤ) (lid : ℕ) :
    Option ProfitabilityResult :=
  match get_livestock db lid with
  | none => none
  | some l =>
      let current_market_value := calculate_current_market_value db today l
      let total_investment := calculate_total_investment db l
      let estimated_profit := current_market_value - total_investment
      let profit_margin :=
        if total_investment > 0 then estimated_profit / total_investment * 100 else 0
      let break_even_price := total_investment / weight_or_one l.current_weight_kg
      some
        { livestock_id := lid
          current_market_value := round2 current_market_value
          total_investment := round2 total_investment
          estimated_profit := round2 estimated_profit
          profit_margin_percentage := round2 profit_margin
          break_even_price := round2 break_even_price
          recommendation := generate_profitability_recommendation profit_margin
          cost_breakdown := get_cost_breakdown db l }

/-- Spec-side formula (transcribed from the specification, for comparison
with `calculate_price_trend`): the mean of the 5 most recent records. -/
def spec_recent_avg (prices : List ℚ) : ℚ :=
  (prices.take 5).sum / ((prices.take 5).length : ℚ)

/-- Spec-side formula: the mean of records 6 to 15. -/
def spec_older_avg (prices : List ℚ) : ℚ :=
  ((prices.drop 5).take 10).sum / (((prices.drop 5).take 10).length : ℚ)

/-- Spec-side formula: `percentChange = (recentAvg - olderAvg)/olderAvg x 100`. -/
def spec_percent_change (prices : List ℚ) : ℚ :=
  (spec_recent_avg prices - spec_older_avg prices) / spec_older_avg prices * 100

/-! Concrete reference data used by witnesses and counterexamples. -/

/-- A cattle animal type row. -/
def tCattle : AnimalType := ⟨1, "Cattle"⟩

/-- A feed with full data, suitable for cattle. -/
def feedA : FeedType := ⟨1, "Hay", some 8, some 2, [1]⟩

/-- A second feed suitable for cattle. -/
def feedB : FeedType := ⟨2, "Grain", some 12, some 3, [1]⟩

/-- A third feed suitable for cattle. -/
def feedC : FeedType := ⟨3, "Silage", some 6, some 1, [1]⟩

/-- A fourth feed suitable for cattle. -/
def feedD : FeedType := ⟨4, "Pellets", some 20, some 5, [1]⟩

/-- A feed whose `protein_percentage` is null. -/
def feedNP : FeedType := ⟨5, "Mystery", none, some 1, [1]⟩

/-- A catch-all cattle feeding rule whose feed lacks a protein percentage. -/
def ruleNP : FeedingRule := ⟨1, feedNP, 0, none, 0, none, "", 10, 2, ""⟩

/-- A catch-all cattle feeding rule on `feedA`. -/
def ruleA : FeedingRule := ⟨1, feedA, 0, none, 0, none, "", 10, 2, ""⟩

/-- Store with one cattle rule whose feed has a null protein percentage. -/
def dbC1 : DB := ⟨[tCattle], [ruleNP], [], [], [], [], [], []⟩

/-- Store with no feeding rules but four cattle-suitable feeds. -/
def dbC8 : DB := ⟨[tCattle], [], [feedA, feedB, feedC, feedD], [], [], [], [], []⟩

/-- Store with no feeding rules and a single cattle-suitable feed whose
protein percentage is null. -/
def dbC8NP : DB := ⟨[tCattle], [], [feedNP], [], [], [], [], []⟩

/-- Store with one well-formed cattle rule. -/
def dbW1 : DB := ⟨[tCattle], [ruleA], [feedA], [], [], [], [], []⟩

/-- The empty store. -/
def dbEmpty : DB := ⟨[], [], [], [], [], [], [], []⟩

/-- A query for animal type 1 with no optional fields. -/
def qPlain : AnimalInput := { animal_type_id := 1 }

/-- A query with age, weight and purpose supplied. -/
def qAdj : AnimalInput :=
  { animal_type_id := 1, age_months := some 24, weight_kg := some 50,
    purpose := some "MILK" }

/-- A query referencing a livestock id that does not exist. -/
def qLive7 : AnimalInput := { animal_type_id := 1, livestock_id := some 7 }

/-- A base recommendation dict, as produced from `ruleA`. -/
def recBase : RecDict := ⟨feedA, 10, 2, "", "Database Recommendation"⟩

/-- A low-severity, non-contagious disease with ten symptoms. -/
def dLow : Disease := ⟨1, "D", "LOW", false, false, [1], [1,2,3,4,5,6,7,8,9,10], "", ""⟩

/-- Store with one disease and three stored symptoms. -/
def dbH : DB := ⟨[tCattle], [], [], [], [dLow], [1,2,3], [], []⟩

/-- A symptom query whose only symptom id does not exist in the store. -/
def qSym99 : SymptomInput := ⟨1, [99], none⟩

/-- A symptom query with an empty symptom set. -/
def qSymNone : SymptomInput := ⟨1, [], none⟩

/-- A price series: recent mean 110 versus older mean 100 (+10%). -/
def pRise : List ℚ := [110,110,110,110,110,100,100,100,100,100,100,100,100,100,100]

/-- A livestock row with recorded weight 0.5 kg and purchase price 1000. -/
def lsHalf : LivestockRow := ⟨1, 1, none, none, some (1/2), "MEAT", some 1000⟩

/-- Store holding `lsHalf`, with no market prices and no cost records. -/
def dbP : DB := ⟨[tCattle], [], [], [lsHalf], [], [], [], []⟩

/-! Shared lemmas about the embedded operations. -/

theorem rhe_nonneg {q : ℚ} (h : 0 ≤ q) : 0 ≤ rhe q := by
  have hf : (0 : ℤ) ≤ Rat.floor q := by
    rwa [show Rat.floor q = ⌊q⌋ from rfl, Int.le_floor, Int.cast_zero]
  simp only [rhe]
  split_ifs <;> omega

theorem round2_nonneg {q : ℚ} (h : 0 ≤ q) : 0 ≤ round2 q := by
  unfold round2
  have := rhe_nonneg (q := q * 100) (by positivity)
  positivity

theorem round2_zero : round2 0 = 0 := by decide

theorem calculate_weight_factor_pos (name : String) (w : ℚ) :
    0 < calculate_weight_factor name w := by
  unfold calculate_weight_factor
  split_ifs <;> norm_num

theorem calculate_age_factor_pos (name : String) (age : ℕ) :
    0 < calculate_age_factor name age := by
  unfold calculate_age_factor
  split_ifs <;> norm_num

theorem calculate_purpose_factor_pos (p : String) :
    0 < calculate_purpose_factor p := by
  unfold calculate_purpose_factor
  split_ifs <;> norm_num

theorem emergency_base_amount_pos (name : String) :
    0 < emergency_base_amount name := by
  unfold emergency_base_amount
  split_ifs <;> norm_num

theorem apply_weight_adjustment_feed (t : AnimalType) (a : AnimalInput)
    (r : RecDict) : (apply_weight_adjustment t a r).feed_type = r.feed_type := by
  simp only [apply_weight_adjustment]
  split_ifs <;> rfl

theorem apply_age_adjustment_feed (t : AnimalType) (a : AnimalInput)
    (r : RecDict) : (apply_age_adjustment t a r).feed_type = r.feed_type := by
  simp only [apply_age_adjustment]
  split_ifs <;> rfl

theorem apply_purpose_adjustment_feed (a : AnimalInput) (r : RecDict) :
    (apply_purpose_adjustment a r).feed_type = r.feed_type := by
  simp only [apply_purpose_adjustment]
  split_ifs <;> rfl

theorem adjust_one_feed (t : AnimalType) (a : AnimalInput) (r : RecDict) :
    (adjust_one t a r).feed_type = r.feed_type := by
  show (apply_purpose_adjustment a (apply_age_adjustment t a (apply_weight_adjustment t a r))).feed_type = r.feed_type
  rw [apply_purpose_adjustment_feed, apply_age_adjustment_feed, apply_weight_adjustment_feed]

theorem apply_weight_adjustment_amount_nonneg (t : AnimalType) (a : AnimalInput)
    {r : RecDict} (h : 0 ≤ r.daily_amount_kg) :
    0 ≤ (apply_weight_adjustment t a r).daily_amount_kg := by
  have hf := (calculate_weight_factor_pos t.name (a.weight_kg.getD 0)).le
  simp only [apply_weight_adjustment]
  split_ifs <;> first | exact mul_nonneg h hf | exact h

theorem apply_age_adjustment_amount_nonneg (t : AnimalType) (a : AnimalInput)
    {r : RecDict} (h : 0 ≤ r.daily_amount_kg) :
    0 ≤ (apply_age_adjustment t a r).daily_amount_kg := by
  have hf := (calculate_age_factor_pos t.name (a.age_months.getD 0)).le
  simp only [apply_age_adjustment]
  split_ifs <;> first | exact mul_nonneg h hf | exact h

theorem apply_purpose_adjustment_amount_nonneg (a : AnimalInput)
    {r : RecDict} (h : 0 ≤ r.daily_amount_kg) :
    0 ≤ (apply_purpose_adjustment a r).daily_amount_kg := by
  have hf := (calculate_purpose_factor_pos (a.purpose.getD "")).le
  simp only [apply_purpose_adjustment]
  split_ifs <;> first | exact mul_nonneg h hf | exact h

theorem adjust_one_amount_nonneg (t : AnimalType) (a : AnimalInput)
    {r : RecDict} (h : 0 ≤ r.daily_amount_kg) :
    0 ≤ (adjust_one t a r).daily_amount_kg := by
  show 0 ≤ round2 (apply_purpose_adjustment a
    (apply_age_adjustment t a (apply_weight_adjustment t a r))).daily_amount_kg
  exact round2_nonneg (apply_purpose_adjustment_amount_nonneg a
    (apply_age_adjustment_amount_nonneg t a
      (apply_weight_adjustment_amount_nonneg t a h)))

theorem key_le_total (x y : ℚ × ℚ) : key_le x y ∨ key_le y x := by
  unfold key_le
  rcases lt_trichotomy x.1 y.1 with h | h | h
  · exact Or.inl (Or.inl h)
  · rcases le_total x.2 y.2 with h2 | h2
    · exact Or.inl (Or.inr ⟨h, h2⟩)
    · exact Or.inr (Or.inr ⟨h.symm, h2⟩)
  · exact Or.inr (Or.inl h)

theorem key_le_trans {x y z : ℚ × ℚ} (h1 : key_le x y) (h2 : key_le y z) :
    key_le x z := by
  unfold key_le at *
  rcases h1 with h1 | ⟨h1, h1'⟩ <;> rcases h2 with h2 | ⟨h2, h2'⟩
  · exact Or.inl (h1.trans h2)
  · exact Or.inl (h2 ▸ h1)
  · exact Or.inl (h1 ▸ h2)
  · exact Or.inr ⟨h1.trans h2, h1'.trans h2'⟩

instance : IsTotal FeedingResult feed_le :=
  ⟨fun a b => key_le_total (sort_key a) (sort_key b)⟩

instance : IsTrans FeedingResult feed_le :=
  ⟨fun _ _ _ h1 h2 => key_le_trans h1 h2⟩

theorem resolve_input_animal_type_id (db : DB) (a : AnimalInput) :
    (resolve_input db a).animal_type_id = a.animal_type_id := by
  unfold resolve_input
  split_ifs
  · cases get_livestock db (a.livestock_id.getD 0) <;> rfl
  · rfl

theorem recommend_body_livestock_id (db : DB) (t : AnimalType)
    (a : AnimalInput) (x : Option ℕ) :
    recommend_body db t { a with livestock_id := x } = recommend_body db t a := by
  cases a
  rfl

/-! Claim theorems. -/

/-- C2 (amended): the confidence score is always in [0,1], and an empty
matching symptom set forces score 0; the converse direction of the claimed
equivalence is refuted by `claim_C2_counterexample`. -/
theorem claim_C2_theorem (d : Disease) (matching missing input_syms : List ℕ) :
    0 ≤ calculate_confidence_score d matching missing input_syms ∧
    calculate_confidence_score d matching missing input_syms ≤ 1 ∧
    (matching = [] → calculate_confidence_score d matching missing input_syms = 0) := by
  simp only [calculate_confidence_score]
  by_cases h1 : matching.isEmpty
  · rw [if_pos h1]
    exact ⟨le_refl 0, by norm_num, fun _ => rfl⟩
  · rw [if_neg h1]
    by_cases h2 : d.symptoms.length = 0
    · rw [if_pos h2]
      exact ⟨le_refl 0, by norm_num, fun _ => rfl⟩
    · rw [if_neg h2]
      refine ⟨le_max_left 0 _, max_le (by norm_num) (min_le_left 1 _), fun h => ?_⟩
      exact absurd (by simp [h]) h1

/-- C2 counterexample: a disease with ten catalogued symptoms, one matching
symptom out of four observed, severity LOW: the excess penalty drives the
clamped score to 0 although the matching set is nonempty, so
"confidence = 0 iff no matching symptom" fails right-to-left. -/
theorem claim_C2_counterexample :
    (analyze_disease_match dLow [1, 11, 12, 13]).confidence_score = 0 ∧
    (analyze_disease_match dLow [1, 11, 12, 13]).matching_symptoms ≠ [] := by
  decide

/-- C2 witness: the amended theorem applied at a concrete empty matching
set. -/
theorem claim_C2_witness :
    calculate_confidence_score dLow [] [] [5] = 0 :=
  (claim_C2_theorem dLow [] [] [5]).2.2 rfl

/-- C6: critical alerts are a sublist of the diagnose results for the same
query, and every alert has severity CRITICAL or HIGH and confidence
strictly above 0.30. -/
theorem claim_C6_theorem (db : DB) (q : SymptomInput) :
    (get_critical_alerts db q).Sublist (analyze_symptoms db q) ∧
    ∀ r ∈ get_critical_alerts db q,
      (r.severity_level = "CRITICAL" ∨ r.severity_level = "HIGH") ∧
        3/10 < r.confidence_score := by
  unfold get_critical_alerts
  constructor
  · exact List.filter_sublist _
  · intro r hr
    have h := (List.mem_filter.1 hr).2
    simp only [Bool.and_eq_true, Bool.or_eq_true, decide_eq_true_eq] at h
    exact ⟨h.1, h.2⟩

/-- C9: a symptom query that resolves to no stored symptoms (empty list, or
only ids of non-existent symptoms) yields an empty diagnosis result, not an
error. -/
theorem claim_C9_theorem (db : DB) (q : SymptomInput)
    (h : resolved_symptoms db q.symptoms = []) :
    analyze_symptoms db q = [] := by
  unfold analyze_symptoms
  cases hT : get_animal_type db q.animal_type_id with
  | none => rfl
  | some t => simp [h]

/-- C9 witness: the theorem applied to an empty symptom query and to a query
holding only an unknown symptom id. -/
theorem claim_C9_witness :
    analyze_symptoms dbH qSymNone = [] ∧ analyze_symptoms dbH qSym99 = [] :=
  ⟨claim_C9_theorem dbH qSymNone rfl, claim_C9_theorem dbH qSym99 rfl⟩

/-- C10: a supplied weight or age of 0 takes part in rule filtering (only
rules whose range admits 0 are kept) but is falsy for the correction-factor
blocks, so the factor is not applied and neither amount nor provenance
changes on account of that field. -/
theorem claim_C10_theorem (t : AnimalType) (a : AnimalInput) (r : RecDict)
    (rule : FeedingRule) :
    apply_weight_adjustment t { a with weight_kg := some 0 } r = r ∧
    apply_age_adjustment t { a with age_months := some 0 } r = r ∧
    rule_matches rule t { a with weight_kg := some 0 } =
      (rule_matches rule t { a with weight_kg := none } && admits_weight rule 0) ∧
    rule_matches rule t { a with age_months := some 0 } =
      (rule_matches rule t { a with age_months := none } && admits_age rule 0) := by
  have hb : ∀ (x y w z : Bool), (x && y && w && z) = ((x && y && true && z) && w) := by
    decide
  have hb2 : ∀ (x w y z : Bool), (x && w && y && z) = ((x && true && y && z) && w) := by
    decide
  exact ⟨rfl, rfl, hb _ _ _ _, hb2 _ _ _ _⟩

/-- C5 (amended): an unknown animal type makes `get_recommendations` return
an empty list (no error of any kind, in particular no `NotFound`), and an
unknown referenced animal is silently ignored: the result is the same as for
the query without the livestock reference. -/
theorem claim_C5_theorem (db : DB) (q : AnimalInput) :
    (get_animal_type db q.animal_type_id = none → get_recommendations db q = some []) ∧
    (∀ lid, q.livestock_id = some lid → get_livestock db lid = none →
      get_recommendations db q =
        get_recommendations db { q with livestock_id := none }) := by
  constructor
  · intro h
    unfold get_recommendations
    rw [h]
  · intro lid hq hl
    unfold get_recommendations
    dsimp only
    cases hT : get_animal_type db q.animal_type_id with
    | none => rfl
    | some t =>
        have h1 : resolve_input db q = q := by
          unfold resolve_input
          by_cases h0 : lid = 0
          · subst h0
            rw [hq]
            rfl
          · have ht : truthyN q.livestock_id = true := by
              rw [hq]; simp [truthyN, h0]
            rw [if_pos ht, hq]
            simp [hl]
        have h2 : resolve_input db ({ q with livestock_id := none }) =
            { q with livestock_id := none } := rfl
        show recommend_body db t (resolve_input db q) =
          recommend_body db t (resolve_input db ({ q with livestock_id := none }))
        rw [h1, h2]
        exact (recommend_body_livestock_id db t q none).symm

/-- C5 counterexample: the claim says the recommend operation fails with a
`NotFound` error for an unknown animal type; on the empty store the service
instead returns a normal empty result (the `DoesNotExist` handler returns
`[]`). -/
theorem claim_C5_counterexample :
    get_recommendations dbEmpty qPlain = some [] ∧
    get_recommendations dbEmpty qPlain ≠ none := by
  exact ⟨rfl, by decide⟩

/-- C5 witness: both amended conjuncts at concrete inputs. -/
theorem claim_C5_witness :
    get_recommendations dbEmpty qPlain = some [] ∧
    get_recommendations dbW1 qLive7 =
      get_recommendations dbW1 { qLive7 with livestock_id := none } :=
  ⟨(claim_C5_theorem dbEmpty qPlain).1 rfl,
   (claim_C5_theorem dbW1 qLive7).2 7 rfl rfl⟩

/-- C3: trend classification.  With fewer than 2 records the result is
`('STABLE', 0)`.  With more than 5 records and a nonzero older average, the
trend is RISING exactly when the percent change (recent mean of the first 5
against the mean of records 6-15) exceeds +5, FALLING exactly when it is
below -5, and STABLE otherwise (so -5 itself is STABLE), and the reported
percentage is the percent change rounded to 2 decimals. -/
theorem claim_C3_theorem (prices : List ℚ) :
    (prices.length < 2 → calculate_price_trend prices = ("STABLE", 0)) ∧
    (5 < prices.length → spec_older_avg prices ≠ 0 →
      calculate_price_trend prices =
        ((if spec_percent_change prices > 5 then "RISING"
          else if spec_percent_change prices < -5 then "FALLING"
          else "STABLE"),
         round2 (spec_percent_change prices))) := by
  constructor
  · intro h
    unfold calculate_price_trend
    rw [if_pos h]
  · intro h5 hzero
    have hlt : ¬ prices.length < 2 := by omega
    have hgt : prices.length > 5 := h5
    have holen : (min 10 ((prices.drop 5).take 10).length : ℕ) =
        ((prices.drop 5).take 10).length :=
      min_eq_right (List.length_take_le _ _)
    have hrec : (prices.take 5).sum / ((min 5 prices.length : ℕ) : ℚ) =
        spec_recent_avg prices := by
      unfold spec_recent_avg
      rw [List.length_take]
    have hold : ((prices.drop 5).take 10).sum /
        ((min 10 ((prices.drop 5).take 10).length : ℕ) : ℚ) =
        spec_older_avg prices := by
      unfold spec_older_avg
      rw [holen]
    simp only [calculate_price_trend]
    rw [if_neg hlt, if_pos hgt, hrec, hold, if_neg hzero]
    rfl

/-- C3 witness: a series whose recent mean is 110 and older mean 100 reports
RISING with +10%. -/
theorem claim_C3_witness :
    calculate_price_trend pRise = ("RISING", 10) := by
  have h := (claim_C3_theorem pRise).2 (by decide) (by decide)
  rw [h]
  decide

/-- C7: for each of the three correction blocks, a factor equal to 1.0
leaves the recommendation (amount, notes, provenance) entirely unchanged,
while a factor different from 1.0 scales the amount, appends the
human-readable note and moves the provenance tag to "adjusted". -/
theorem claim_C7_theorem (t : AnimalType) (a : AnimalInput) (r : RecDict) :
    (truthyQ a.weight_kg = true →
      (calculate_weight_factor t.name (a.weight_kg.getD 0) = 1 →
        apply_weight_adjustment t a r = r) ∧
      (calculate_weight_factor t.name (a.weight_kg.getD 0) ≠ 1 →
        (apply_weight_adjustment t a r).daily_amount_kg =
          r.daily_amount_kg * calculate_weight_factor t.name (a.weight_kg.getD 0) ∧
        (apply_weight_adjustment t a r).notes =
          r.notes ++ (" Amount adjusted by " ++
            fmtFixed 2 (calculate_weight_factor t.name (a.weight_kg.getD 0)) ++
            "x for weight.") ∧
        provTag (apply_weight_adjustment t a r).source = "adjusted")) ∧
    (truthyN a.age_months = true →
      (calculate_age_factor t.name (a.age_months.getD 0) = 1 →
        apply_age_adjustment t a r = r) ∧
      (calculate_age_factor t.name (a.age_months.getD 0) ≠ 1 →
        (apply_age_adjustment t a r).daily_amount_kg =
          r.daily_amount_kg * calculate_age_factor t.name (a.age_months.getD 0) ∧
        (apply_age_adjustment t a r).notes =
          r.notes ++ (" Amount adjusted by " ++
            fmtFixed 2 (calculate_age_factor t.name (a.age_months.getD 0)) ++
            "x for age.") ∧
        provTag (apply_age_adjustment t a r).source = "adjusted")) ∧
    (truthyS a.purpose = true →
      (calculate_purpose_factor (a.purpose.getD "") = 1 →
        apply_purpose_adjustment a r = r) ∧
      (calculate_purpose_factor (a.purpose.getD "") ≠ 1 →
        (apply_purpose_adjustment a r).daily_amount_kg =
          r.daily_amount_kg * calculate_purpose_factor (a.purpose.getD "") ∧
        (apply_purpose_adjustment a r).notes =
          r.notes ++ (" Amount adjusted by " ++
            fmtFixed 2 (calculate_purpose_factor (a.purpose.getD "")) ++ "x for " ++
            lowerStr (a.purpose.getD "") ++ " purpose.") ∧
        provTag (apply_purpose_adjustment a r).source = "adjusted")) := by
  have hsmart : ∀ s : String, strContains s ("Smart Recommendation") = true →
      provTag s = "adjusted" := by
    intro s hs
    unfold provTag
    rw [if_pos hs]
  have hw : provTag ("Smart Recommendation (Weight Adjusted)") = "adjusted" := by decide
  have hag : provTag ("Smart Recommendation (Age Adjusted)") = "adjusted" := by decide
  have hpu : provTag ("Smart Recommendation (Purpose Adjusted)") = "adjusted" := by decide
  refine ⟨fun htr => ?_, fun htr => ?_, fun htr => ?_⟩
  · simp only [apply_weight_adjustment, htr, if_true]
    constructor
    · intro h1
      rw [if_neg (by simp [h1])]
      simp [h1]
    · intro h1
      rw [if_pos h1]
      exact ⟨rfl, rfl, hw⟩
  · simp only [apply_age_adjustment, htr, if_true]
    constructor
    · intro h1
      rw [if_neg (by simp [h1])]
      simp [h1]
    · intro h1
      rw [if_pos h1]
      refine ⟨rfl, rfl, ?_⟩
      by_cases hs : strContains r.source ("Smart Recommendation") = true
      · rw [if_pos hs]
        exact hsmart _ hs
      · rw [if_neg hs]
        exact hag
  · simp only [apply_purpose_adjustment, htr, if_true]
    constructor
    · intro h1
      rw [if_neg (by simp [h1])]
      simp [h1]
    · intro h1
      rw [if_pos h1]
      refine ⟨rfl, rfl, ?_⟩
      by_cases hs : strContains r.source ("Smart Recommendation") = true
      · rw [if_pos hs]
        exact hsmart _ hs
      · rw [if_neg hs]
        exact hpu

/-- C7 witness: for a cattle query at weight 50 (factor 0.60), age 24
(factor 1.00) and purpose MILK (factor 1.30): the age factor leaves the
record unchanged, the weight factor adjusts the provenance. -/
theorem claim_C7_witness :
    apply_age_adjustment tCattle qAdj recBase = recBase ∧
    provTag (apply_weight_adjustment tCattle qAdj recBase).source = "adjusted" :=
  ⟨((claim_C7_theorem tCattle qAdj recBase).2.1 (by decide)).1 (by decide),
   (((claim_C7_theorem tCattle qAdj recBase).1 (by decide)).2 (by decide)).2.2⟩

theorem mem_base_recommendations {db : DB} {t : AnimalType} {a : AnimalInput}
    {b : RecDict} (hb : b ∈ get_base_recommendations db t a) :
    ∃ rule ∈ db.feed_rules,
      b = { feed_type := rule.feed_type
            daily_amount_kg := rule.daily_amount_kg
            feeding_frequency := rule.feeding_frequency
            notes := rule.notes
            source := "Database Recommendation" } := by
  unfold get_base_recommendations at hb
  rcases List.mem_map.1 hb with ⟨rule, hr, he⟩
  exact ⟨rule, (List.mem_filter.1 hr).1, he.symm⟩

theorem mem_emergency {db : DB} {a : AnimalInput} {e : RecDict}
    (he : e ∈ get_emergency_recommendations db a) :
    ∃ t, get_animal_type db a.animal_type_id = some t ∧
      ∃ f ∈ db.feed_types,
        e = { feed_type := f
              daily_amount_kg := emergency_base_amount t.name
              feeding_frequency := 2
              notes := "Basic recommendation - please consult with veterinarian for specific needs."
              source := "Emergency Recommendation" } := by
  unfold get_emergency_recommendations at he
  cases hT : get_animal_type db a.animal_type_id with
  | none =>
      rw [hT] at he
      exact absurd he (List.not_mem_nil e)
  | some t =>
      rw [hT] at he
      rcases List.mem_map.1 he with ⟨f, hf, hfe⟩
      refine ⟨t, rfl, f, ?_, hfe.symm⟩
      exact (List.mem_filter.1 (List.take_subset _ _ hf)).1

theorem mem_adjusted {db : DB} {t : AnimalType} {base : List RecDict}
    {a : AnimalInput} {e : RecDict}
    (he : e ∈ apply_intelligent_adjustments db t base a) :
    (∃ b ∈ base, e = adjust_one t a b) ∨ e ∈ get_emergency_recommendations db a := by
  simp only [apply_intelligent_adjustments] at he
  by_cases hE : (base.map (adjust_one t a)).isEmpty
  · rw [if_pos hE] at he
    exact Or.inr he
  · rw [if_neg hE] at he
    rcases List.mem_map.1 he with ⟨b, hb, hbe⟩
    exact Or.inl ⟨b, hb, hbe.symm⟩

theorem mem_recommend_results {db : DB} {t : AnimalType} {a : AnimalInput}
    {x : FeedingResult} (hx : x ∈ recommend_results db t a) :
    ∃ e ∈ apply_intelligent_adjustments db t (get_base_recommendations db t a) a,
      x = make_result e := by
  unfold recommend_results at hx
  rcases List.mem_map.1 hx with ⟨e, he, hee⟩
  exact ⟨e, he, hee.symm⟩

theorem calculate_daily_cost_nonneg (f : FeedType) (amt : ℚ)
    (hc : ∀ c, f.cost_per_kg = some c → 0 ≤ c) (ha : 0 ≤ amt) :
    0 ≤ calculate_daily_cost f amt := by
  unfold calculate_daily_cost
  by_cases ht : truthyQ f.cost_per_kg = true
  · rw [if_pos ht]
    cases hcc : f.cost_per_kg with
    | none =>
        rw [hcc] at ht
        exact absurd ht (by simp [truthyQ])
    | some v =>
        simp only [hcc, Option.getD_some]
        exact mul_nonneg (hc v hcc) ha
  · rw [if_neg ht]

theorem recommend_results_bounds {db : DB} {t : AnimalType} {a : AnimalInput}
    (hamt : ∀ r ∈ db.feed_rules, 0 ≤ r.daily_amount_kg)
    (hcost : ∀ r ∈ db.feed_rules, ∀ c, r.feed_type.cost_per_kg = some c → 0 ≤ c)
    (hcostf : ∀ f ∈ db.feed_types, ∀ c, f.cost_per_kg = some c → 0 ≤ c)
    {x : FeedingResult} (hx : x ∈ recommend_results db t a) :
    0 ≤ x.daily_amount_kg ∧ 0 ≤ x.cost_per_day := by
  rcases mem_recommend_results hx with ⟨e, he, rfl⟩
  have hshape : 0 ≤ e.daily_amount_kg ∧
      (∀ c, e.feed_type.cost_per_kg = some c → 0 ≤ c) := by
    rcases mem_adjusted he with ⟨b, hb, rfl⟩ | hem
    · rcases mem_base_recommendations hb with ⟨rule, hrule, rfl⟩
      constructor
      · exact adjust_one_amount_nonneg t a (hamt rule hrule)
      · rw [adjust_one_feed]
        exact hcost rule hrule
    · rcases mem_emergency hem with ⟨t', _, f, hf, rfl⟩
      exact ⟨(emergency_base_amount_pos t'.name).le, hcostf f hf⟩
  exact ⟨hshape.1, calculate_daily_cost_nonneg _ _ hshape.2 hshape.1⟩

theorem recommend_results_protein {db : DB} {t : AnimalType} {a : AnimalInput}
    (hprotr : ∀ r ∈ db.feed_rules, r.feed_type.protein_percentage.isSome = true)
    (hprotf : ∀ f ∈ db.feed_types, f.protein_percentage.isSome = true)
    {x : FeedingResult} (hx : x ∈ recommend_results db t a) :
    x.feed_type.protein_percentage.isSome = true := by
  rcases mem_recommend_results hx with ⟨e, he, rfl⟩
  show e.feed_type.protein_percentage.isSome = true
  rcases mem_adjusted he with ⟨b, hb, rfl⟩ | hem
  · rw [adjust_one_feed]
    rcases mem_base_recommendations hb with ⟨rule, hrule, rfl⟩
    exact hprotr rule hrule
  · rcases mem_emergency hem with ⟨t', _, f, hf, rfl⟩
    exact hprotf f hf

/-- C1 (amended): for a catalog with nonnegative daily amounts and feed
costs whose feeds all carry a protein percentage, `get_recommendations`
succeeds and returns at most 5 results, each with amount >= 0 and
cost/day >= 0, sorted ascending by cost/day with ties broken by descending
protein percentage (`feed_le`).  The original claim's clause that a missing
protein percentage "sorts as lowest" is refuted by
`claim_C1_counterexample`: the sort raises instead. -/
theorem claim_C1_theorem (db : DB) (q : AnimalInput)
    (hamt : ∀ r ∈ db.feed_rules, 0 ≤ r.daily_amount_kg)
    (hcost : ∀ r ∈ db.feed_rules, ∀ c, r.feed_type.cost_per_kg = some c → 0 ≤ c)
    (hcostf : ∀ f ∈ db.feed_types, ∀ c, f.cost_per_kg = some c → 0 ≤ c)
    (hprotr : ∀ r ∈ db.feed_rules, r.feed_type.protein_percentage.isSome = true)
    (hprotf : ∀ f ∈ db.feed_types, f.protein_percentage.isSome = true) :
    ∃ res, get_recommendations db q = some res ∧ res.length ≤ 5 ∧
      List.Sorted feed_le res ∧
      ∀ r ∈ res, 0 ≤ r.daily_amount_kg ∧ 0 ≤ r.cost_per_day := by
  unfold get_recommendations
  cases hT : get_animal_type db q.animal_type_id with
  | none =>
      exact ⟨[], rfl, by simp, List.sorted_nil, by simp⟩
  | some t =>
      show ∃ res, recommend_body db t (resolve_input db q) = some res ∧ _
      simp only [recommend_body]
      have hall : (recommend_results db t (resolve_input db q)).all
          (fun r => r.feed_type.protein_percentage.isSome) = true := by
        rw [List.all_eq_true]
        intro r hr
        exact recommend_results_protein hprotr hprotf hr
      rw [if_pos hall]
      refine ⟨_, rfl, ?_, ?_, ?_⟩
      · exact List.length_take_le 5 _
      · exact List.Pairwise.sublist (List.take_sublist 5 _)
          (List.sorted_insertionSort feed_le _)
      · intro r hr
        have hr1 : r ∈ (recommend_results db t (resolve_input db q)).insertionSort feed_le :=
          List.take_subset _ _ hr
        have hr2 : r ∈ recommend_results db t (resolve_input db q) :=
          (List.perm_insertionSort feed_le _).mem_iff.1 hr1
        exact recommend_results_bounds hamt hcost hcostf hr2

/-- C1 counterexample: with one applicable rule whose feed has a null
protein percentage, the sort key `-protein_percentage` raises, so
`get_recommendations` errors rather than sorting the feed as lowest. -/
theorem claim_C1_counterexample :
    get_recommendations dbC1 qPlain = none := rfl

/-- C1 witness: the amended theorem at a concrete well-formed store. -/
theorem claim_C1_witness :
    ∃ res, get_recommendations dbW1 qAdj = some res ∧ res.length ≤ 5 ∧
      List.Sorted feed_le res ∧
      ∀ r ∈ res, 0 ≤ r.daily_amount_kg ∧ 0 ≤ r.cost_per_day :=
  claim_C1_theorem dbW1 qAdj (by decide) (by decide) (by decide) (by decide) (by decide)

/-- C8 (amended): when no feeding rule matches the resolved query and every
catalogued feed carries a protein percentage, the advisor returns at most 3
results, all with provenance "fallback" (`Emergency Recommendation`),
feeding frequency 2, the animal-type-specific flat base amount, and a note
carrying veterinary-consultation language.  Without the protein condition
the fallback path fails in the result sort (`claim_C8_counterexample`),
exactly as in C1. -/
theorem claim_C8_theorem (db : DB) (q : AnimalInput) (t : AnimalType)
    (hT : get_animal_type db q.animal_type_id = some t)
    (hbase : get_base_recommendations db t (resolve_input db q) = [])
    (hprotf : ∀ f ∈ db.feed_types, f.protein_percentage.isSome = true) :
    ∃ res, get_recommendations db q = some res ∧ res.length ≤ 3 ∧
      ∀ r ∈ res,
        r.recommendation_source = "Emergency Recommendation" ∧
        provTag r.recommendation_source = "fallback" ∧
        r.feeding_frequency = 2 ∧
        r.daily_amount_kg = emergency_base_amount t.name ∧
        strContains r.notes ("consult with veterinarian") = true := by
  have hTa : get_animal_type db (resolve_input db q).animal_type_id = some t := by
    rw [resolve_input_animal_type_id]
    exact hT
  unfold get_recommendations
  rw [hT]
  simp only [recommend_body]
  have hres : recommend_results db t (resolve_input db q) =
      (get_emergency_recommendations db (resolve_input db q)).map make_result := by
    unfold recommend_results
    rw [hbase]
    rfl
  have hmem : ∀ x ∈ recommend_results db t (resolve_input db q),
      x.recommendation_source = "Emergency Recommendation" ∧
      x.feeding_frequency = 2 ∧
      x.daily_amount_kg = emergency_base_amount t.name ∧
      x.notes = "Basic recommendation - please consult with veterinarian for specific needs." ∧
      x.feed_type.protein_percentage.isSome = true := by
    intro x hx
    rw [hres] at hx
    rcases List.mem_map.1 hx with ⟨e, he, hex⟩
    rcases mem_emergency he with ⟨t', ht', f, hf, rfl⟩
    have : t' = t := by
      rw [hTa] at ht'
      exact (Option.some.inj ht').symm
    subst this
    subst hex
    exact ⟨rfl, rfl, rfl, rfl, hprotf f hf⟩
  have hall : (recommend_results db t (resolve_input db q)).all
      (fun r => r.feed_type.protein_percentage.isSome) = true := by
    rw [List.all_eq_true]
    intro r hr
    exact (hmem r hr).2.2.2.2
  rw [if_pos hall]
  refine ⟨_, rfl, ?_, ?_⟩
  · have h1 : (recommend_results db t (resolve_input db q)).length ≤ 3 := by
      rw [hres, List.length_map]
      unfold get_emergency_recommendations
      rw [hTa, List.length_map]
      exact (List.length_take_le 3 _)
    have h2 : (List.take 5 ((recommend_results db t (resolve_input db q)).insertionSort feed_le)).length ≤
        ((recommend_results db t (resolve_input db q)).insertionSort feed_le).length := by
      rw [List.length_take]
      exact min_le_right _ _
    rw [List.length_insertionSort feed_le _] at h2
    exact h2.trans h1
  · intro r hr
    have hr2 : r ∈ recommend_results db t (resolve_input db q) :=
      (List.perm_insertionSort feed_le _).mem_iff.1 (List.take_subset _ _ hr)
    rcases hmem r hr2 with ⟨h1, h2, h3, h4, _⟩
    refine ⟨h1, ?_, h2, h3, ?_⟩
    · rw [h1]
      decide
    · rw [h4]
      decide

/-- C8 counterexample: a store with no feeding rules and one cattle-suitable
feed whose protein percentage is null.  No feeding rule matches the query
(the base recommendations are empty), yet the advisor does not return
fallback results: the emergency result's sort key `-protein_percentage`
raises, so `get_recommendations` fails. -/
theorem claim_C8_counterexample :
    get_base_recommendations dbC8NP tCattle (resolve_input dbC8NP qPlain) = [] ∧
    get_animal_type dbC8NP qPlain.animal_type_id = some tCattle ∧
    get_recommendations dbC8NP qPlain = none := by
  exact ⟨rfl, rfl, rfl⟩

/-- C8 witness: a store with four cattle-suitable feeds and no feeding
rules. -/
theorem claim_C8_witness :
    ∃ res, get_recommendations dbC8 qPlain = some res ∧ res.length ≤ 3 ∧
      ∀ r ∈ res,
        r.recommendation_source = "Emergency Recommendation" ∧
        provTag r.recommendation_source = "fallback" ∧
        r.feeding_frequency = 2 ∧
        r.daily_amount_kg = emergency_base_amount tCattle.name ∧
        strContains r.notes ("consult with veterinarian") = true :=
  claim_C8_theorem dbC8 qPlain tCattle rfl rfl (by decide)

/-- C4 (amended): for every resolved animal, profit = market value minus
total investment and margin = profit/investment x 100 with margin 0 (and no
division error) at investment 0 (each rounded to 2 decimals as the service
reports them).  The break-even divisor is `weight or 1` — the recorded
weight itself whenever it is nonzero, 1 only for a missing or zero weight —
which agrees with the claimed `max(weight, 1)` for weights 0 or >= 1 but not
for weights strictly between 0 and 1 (see `claim_C4_counterexample`). -/
theorem claim_C4_theorem (db : DB) (today : ℤ) (lid : ℕ) (l : LivestockRow)
    (h : get_livestock db lid = some l) :
    ∃ res, analyze_livestock_profitability db today lid = some res ∧
      res.estimated_profit =
        round2 (calculate_current_market_value db today l - calculate_total_investment db l) ∧
      (0 < calculate_total_investment db l →
        res.profit_margin_percentage =
          round2 ((calculate_current_market_value db today l - calculate_total_investment db l) /
            calculate_total_investment db l * 100)) ∧
      (calculate_total_investment db l = 0 → res.profit_margin_percentage = 0) ∧
      res.break_even_price =
        round2 (calculate_total_investment db l / weight_or_one l.current_weight_kg) ∧
      (∀ w, l.current_weight_kg = some w → 1 ≤ w ∨ w = 0 →
        res.break_even_price = round2 (calculate_total_investment db l / max w 1)) ∧
      (l.current_weight_kg = none →
        res.break_even_price = round2 (calculate_total_investment db l)) := by
  unfold analyze_livestock_profitability
  rw [h]
  refine ⟨_, rfl, rfl, ?_, ?_, rfl, ?_, ?_⟩
  · intro hpos
    show round2 (if 0 < calculate_total_investment db l then _ else _) = _
    rw [if_pos hpos]
  · intro hz
    show round2 (if 0 < calculate_total_investment db l then _ else _) = 0
    rw [if_neg (by rw [hz]; exact lt_irrefl 0), round2_zero]
  · intro w hw hcase
    show round2 (calculate_total_investment db l / weight_or_one l.current_weight_kg) = _
    rcases hcase with h1 | h1
    · have hne : w ≠ 0 := by positivity
      rw [hw]
      unfold weight_or_one
      dsimp only
      rw [if_neg hne, max_eq_left h1]
    · subst h1
      rw [hw]
      unfold weight_or_one
      dsimp only
      rw [if_pos rfl, max_eq_right (by norm_num)]
  · intro hw
    show round2 (calculate_total_investment db l / weight_or_one l.current_weight_kg) = _
    rw [hw]
    unfold weight_or_one
    dsimp only
    rw [div_one]

/-- C4 counterexample: livestock with recorded weight 0.5 kg and total
investment 1000: the service reports a break-even price of 2000 (division
by the weight itself), while the claimed formula `investment / max(weight,1)`
gives 1000. -/
theorem claim_C4_counterexample :
    (analyze_livestock_profitability dbP 0 1).map (fun r => r.break_even_price) =
      some 2000 ∧
    round2 (calculate_total_investment dbP lsHalf / max ((1:ℚ)/2) 1) = 1000 ∧
    (2000 : ℚ) ≠ 1000 := by
  decide

/-- C4 witness: the amended theorem at the concrete store `dbP`. -/
theorem claim_C4_witness :
    ∃ res, analyze_livestock_profitability dbP 0 1 = some res ∧
      res.break_even_price =
        round2 (calculate_total_investment dbP lsHalf / weight_or_one lsHalf.current_weight_kg) := by
  obtain ⟨res, h1, _, _, _, h5, _, _⟩ := claim_C4_theorem dbP 0 1 lsHalf rfl
  exact ⟨res, h1, h5⟩

end Farm
